import Mathlib

/-!
Verification of the Geopedia import tasks (`extra-tasks/geopedia/geopedia.py`).

The development shallowly embeds the two tasks of the module:

* `AddGeopediaFeatureTask` (raster importer): fetches a tile from the
  Geopedia WMS service, classifies its pixels either in binary mode
  (alpha-channel test) or multi-class mode (mean absolute colour
  difference below a tolerance), reprojects the classified raster and
  merges it into the patch's target layer.
* `GeopediaVectorImportTask` (vector importer): fetches vector features,
  infers the dataset CRS from the first feature, optionally reprojects
  and clips, and stores the result as a vector layer.

Modelling conventions:

* Decoded tile pixels are `List ℕ` (uint8 channel values of the PNG).
* Single-band rasters are total functions `ℕ × ℕ → ℤ` on pixel
  coordinates; array shapes are elided because every array operation in
  the source is pointwise, and numeric dtype casts are treated as the
  identity (labels are assumed representable in the configured dtype).
* External collaborators (rasterio's warp/reproject, geopandas
  `to_crs` coordinate math and `clip`) are oracle function parameters:
  the source delegates their numeric semantics wholesale.
* Python exceptions become `Except GeoErr`.
-/

namespace Geopedia

/-- Pixel coordinates (row, column) of a raster grid. -/
abbrev Pos := ℕ × ℕ

/-- A decoded tile pixel: the list of its uint8 channel values (RGBA). -/
abbrev Pixel := List ℕ

/-- A single-band raster of label values, as a total function on pixel
coordinates (shapes elided; all source operations are pointwise). -/
abbrev Grid := Pos → ℤ

/-- The eo-learn feature types used by the module (`FeatureType` of
`eolearn.core`): time-dependent rasters `DATA`/`MASK`, timeless rasters
`DATA_TIMELESS`/`MASK_TIMELESS`, and the vector types. -/
inductive FeatureType where
  | data
  | mask
  | dataTimeless
  | maskTimeless
  | vector
  | vectorTimeless
  deriving DecidableEq

/-- A rectangular extent (minx, miny, maxx, maxy), coordinates as ℚ. -/
structure Bounds where
  minx : ℚ
  miny : ℚ
  maxx : ℚ
  maxy : ℚ
  deriving DecidableEq

/-- `sentinelhub.BBox`: an extent together with a CRS identifier. -/
structure BBoxM where
  bounds : Bounds
  crs : String
  deriving DecidableEq

/-- A GeoJSON-like geometry as returned by Geopedia: its bounds and the
embedded CRS name (`geometry["crs"]["properties"]["name"]`).  Geometry
shape beyond its bounding box is irrelevant to the verified claims. -/
structure GeomJson where
  crsName : String
  minx : ℚ
  miny : ℚ
  maxx : ℚ
  maxy : ℚ
  deriving DecidableEq

/-- One Geopedia feature record: optional geometry plus properties. -/
structure Feature where
  geometry : Option GeomJson
  properties : List (String × String)
  deriving DecidableEq

/-- A `geopandas.GeoDataFrame`: feature rows tagged with a CRS. -/
structure GeoDataFrame where
  crs : String
  rows : List Feature
  deriving DecidableEq

/-- A raster array as stored in a patch layer: either 2-D of shape
(h, w), or 3-D of shape (h, w, 1) — a 2-D grid with a trailing
singleton channel axis, which is the only 3-D shape this pipeline
writes. -/
inductive RasterData where
  | two (g : Grid)
  | three (g : Grid)

/-- `numpy.squeeze` on the rasters of this pipeline: drops the trailing
singleton channel axis, leaving the underlying 2-D grid (values are
unchanged). -/
def RasterData.squeeze : RasterData → Grid
  | .two g => g
  | .three g => g

/-- Content of one patch layer: a raster array or a GeoDataFrame. -/
inductive LayerData where
  | rasterLayer (d : RasterData)
  | vectorLayer (gdf : GeoDataFrame)

/-- `eolearn.core.EOPatch`: an optional bounding box plus a mapping from
(feature type, feature name) to layer data, modelled as an association
list (first match wins on lookup). -/
structure EOPatch where
  bbox : Option BBoxM
  layers : List ((FeatureType × String) × LayerData)

/-- Layer lookup, `eopatch[feature_type][feature_name]`. -/
def getLayer (p : EOPatch) (ft : FeatureType) (nm : String) : Option LayerData :=
  (p.layers.find? fun e => decide (e.1 = (ft, nm))).map Prod.snd

/-- Layer assignment, `eopatch[feature_type][feature_name] = value`. -/
def setLayer (p : EOPatch) (ft : FeatureType) (nm : String) (d : LayerData) : EOPatch :=
  { p with layers := ((ft, nm), d) :: p.layers.filter fun e => decide (e.1 ≠ (ft, nm)) }

/-- The error conditions raised by the module (Python exceptions). -/
inductive GeoErr where
  | missingBBox
  | missingMaskLayer
  | indexError
  | noGeometries
  | crsMismatch
  deriving DecidableEq

/-! ## Raster importer: `AddGeopediaFeatureTask` -/

/-- The `raster_value` configuration: a scalar label (binary mode) or
the ordered `(label, reference colour)` values of the class dictionary
(multi-class mode; the list order is the dict's iteration order). -/
inductive RasterValue where
  | scalar (v : ℤ)
  | multiclass (classes : List (ℤ × List ℤ))

/-- Configuration of `AddGeopediaFeatureTask` relevant to its value
semantics (`layer`, `theme`, `image_format` only shape the HTTP request
and `raster_dtype` is elided as the identity cast). -/
structure RasterTaskCfg where
  featureType : FeatureType
  featureName : String
  rasterValue : RasterValue
  noDataVal : ℤ
  meanAbsDifference : ℚ

/-- Oracle for `AddGeopediaFeatureTask._reproject`: rasterio's
bounds-derived affine warp from POP_WEB to the patch CRS, parameterised
by the patch bbox.  Its numeric semantics are external. -/
abbrev ReprojFn := BBoxM → Grid → Grid

/-- `np.mean(np.abs(request_data - intensities), axis=-1)` at one pixel:
mean absolute per-channel difference between a pixel colour and a
reference colour. -/
def meanAbsDiff (px : Pixel) (ref : List ℤ) : ℚ :=
  ((((px.zip ref).map fun c => |((c.1 : ℤ) - c.2)|).sum : ℤ) : ℚ) / (px.length : ℚ)

/-- The multi-class classification of one pixel (`_map_from_multiclass`
lines 163–166, before reprojection): start from the no-data fill and
for each class, in dict iteration order, overwrite with its label when
the mean absolute difference is strictly below the tolerance. -/
def mapFromMulticlassPixel (noData : ℤ) (tol : ℚ) (classes : List (ℤ × List ℤ))
    (px : Pixel) : ℤ :=
  classes.foldl (fun acc c => if meanAbsDiff px c.2 < tol then c.1 else acc) noData

/-- The multi-class classification raster, pointwise over the tile. -/
def multiclassRaster (noData : ℤ) (tol : ℚ) (classes : List (ℤ × List ℤ))
    (tile : Pos → Pixel) : Grid :=
  fun pos => mapFromMulticlassPixel noData tol classes (tile pos)

/-- `_to_binary_mask` at one pixel:
`(array[..., -1] > 0).astype(dtype) * binaries_raster_value`. -/
def toBinaryMaskPixel (v : ℤ) (px : Pixel) : ℤ :=
  (if 0 < px.getLastD 0 then 1 else 0) * v

/-- `_to_binary_mask`, pointwise over the tile. -/
def toBinaryMask (v : ℤ) (tile : Pos → Pixel) : Grid :=
  fun pos => toBinaryMaskPixel v (tile pos)

/-- Reading the base raster in `_map_from_binaries`: the existing target
layer squeezed to 2-D when present, otherwise a fresh raster filled with
the no-data value (`np.ones(dst_shape) * no_data_val`).  A vector layer
under a raster feature type cannot occur (eo-learn's typing stores only
arrays there); that branch is mapped to the fresh raster. -/
def squeezeBase (noData : ℤ) (existing : Option LayerData) : Grid :=
  match existing with
  | some (.rasterLayer d) => d.squeeze
  | _ => fun _ => noData

/-- `_map_from_binaries`: binary-classify the tile, reproject it, and
overwrite the base raster exactly where the reprojected value is nonzero
(`raster[new_raster != 0] = new_raster[new_raster != 0]`). -/
def mapFromBinaries (cfg : RasterTaskCfg) (rp : ReprojFn) (p : EOPatch) (bbox : BBoxM)
    (tile : Pos → Pixel) (v : ℤ) : RasterData :=
  let raster := squeezeBase cfg.noDataVal (getLayer p cfg.featureType cfg.featureName)
  let newRaster := rp bbox (toBinaryMask v tile)
  .two fun pos => if newRaster pos ≠ 0 then newRaster pos else raster pos

/-- `_map_from_multiclass`: classify the tile from a fresh no-data
raster and reproject; the patch argument's layers are never read (the
patch only supplies the bbox, already extracted by `execute`). -/
def mapFromMulticlass (cfg : RasterTaskCfg) (rp : ReprojFn) (p : EOPatch) (bbox : BBoxM)
    (tile : Pos → Pixel) (classes : List (ℤ × List ℤ)) : RasterData :=
  .two (rp bbox (multiclassRaster cfg.noDataVal cfg.meanAbsDifference classes tile))

/-- Lines 188–189 of `execute`: append a trailing singleton channel axis
when the target feature type is `MASK_TIMELESS` and the raster is 2-D. -/
def appendChannelIfNeeded (ft : FeatureType) (d : RasterData) : RasterData :=
  match d with
  | .two g => if ft = FeatureType.maskTimeless then .three g else .two g
  | .three g => .three g

/-- `AddGeopediaFeatureTask.execute`: read the IS_DATA mask (KeyError if
absent), require a bbox for the WMS request, classify-and-merge
according to the `raster_value` mode, adjust dimensions, and write the
result into the target layer.  `tile` is the single decoded image of the
WMS response; `rp` the reprojection oracle. -/
def executeRaster (cfg : RasterTaskCfg) (rp : ReprojFn) (tile : Pos → Pixel)
    (p : EOPatch) : Except GeoErr EOPatch :=
  match getLayer p FeatureType.mask "IS_DATA" with
  | none => .error .missingMaskLayer
  | some _ =>
    match p.bbox with
    | none => .error .missingBBox
    | some bbox =>
      let raster : RasterData :=
        match cfg.rasterValue with
        | .multiclass classes => mapFromMulticlass cfg rp p bbox tile classes
        | .scalar v => mapFromBinaries cfg rp p bbox tile v
      let result := appendChannelIfNeeded cfg.featureType raster
      .ok (setLayer p cfg.featureType cfg.featureName (.rasterLayer result))

/-- The classified-and-merged raster of one `executeRaster` run (the
`raster` local of `execute`, lines 181–186). -/
def classifiedRaster (cfg : RasterTaskCfg) (rp : ReprojFn) (p : EOPatch) (bbox : BBoxM)
    (tile : Pos → Pixel) : RasterData :=
  match cfg.rasterValue with
  | .multiclass classes => mapFromMulticlass cfg rp p bbox tile classes
  | .scalar v => mapFromBinaries cfg rp p bbox tile v

theorem executeRaster_ok_elim (cfg : RasterTaskCfg) (rp : ReprojFn) (tile : Pos → Pixel)
    (p p' : EOPatch) (h : executeRaster cfg rp tile p = Except.ok p') :
    ∃ bbox ld, p.bbox = some bbox ∧ getLayer p FeatureType.mask "IS_DATA" = some ld ∧
      p' = setLayer p cfg.featureType cfg.featureName
        (.rasterLayer (appendChannelIfNeeded cfg.featureType
          (classifiedRaster cfg rp p bbox tile))) := by
  unfold executeRaster at h
  split at h
  · exact absurd h (by simp)
  · rename_i ld hld
    split at h
    · exact absurd h (by simp)
    · rename_i bbox hbb
      refine ⟨bbox, ld, hbb, hld, ?_⟩
      have := (Except.ok.injEq _ _ ▸ h)
      rw [← this]
      cases hv : cfg.rasterValue <;> rw [classifiedRaster, hv]

/-! ## Vector importer: `GeopediaVectorImportTask` -/

/-- Configuration of `GeopediaVectorImportTask` relevant to its value
semantics (`geopedia_table`, `config` and the passthrough kwargs only
shape the fetch, which is abstracted as the `fetched` feature list). -/
structure VectorTaskCfg where
  featureType : FeatureType
  featureName : String
  reproject : Bool
  clip : Bool

/-- Oracle for geopandas `to_crs` coordinate math on one feature: given
source and target CRS, transform the feature's geometry. -/
abbrev TransformFn := String → String → Feature → Feature

/-- Oracle for `gpd.clip(vectors, extent, keep_geom_type=True)`. -/
abbrev ClipFn := BBoxM → GeoDataFrame → GeoDataFrame

/-- `GeoDataFrame.to_crs`: retag with the target CRS and transform every
row's geometry through the coordinate-math oracle. -/
def toCrs (tr : TransformFn) (g : GeoDataFrame) (c : String) : GeoDataFrame :=
  { crs := c, rows := g.rows.map (tr g.crs c) }

/-- `_load_vector_data`: exhaust the feature iterator (abstracted as the
`fetched` list), index the first feature (IndexError when the dataset is
empty), require its geometry, and build a GeoDataFrame tagged with the
CRS read from that geometry's embedded metadata. -/
def loadVectorData (fetched : List Feature) : Except GeoErr GeoDataFrame :=
  match fetched with
  | [] => .error .indexError
  | f :: _ =>
    match f.geometry with
    | none => .error .noGeometries
    | some g => .ok { crs := g.crsName, rows := fetched }

/-- `_reproject_and_clip`: reproject to the bbox CRS when enabled
(requires a bbox), then clip to the bbox extent when enabled (requires a
bbox and that the vectors' CRS already equals the bbox CRS). -/
def reprojectAndClip (cfg : VectorTaskCfg) (tr : TransformFn) (cl : ClipFn)
    (vectors : GeoDataFrame) (bbox : Option BBoxM) : Except GeoErr GeoDataFrame :=
  let afterReproject : Except GeoErr GeoDataFrame :=
    if cfg.reproject then
      match bbox with
      | none => .error .missingBBox
      | some bb => .ok (toCrs tr vectors bb.crs)
    else .ok vectors
  afterReproject.bind fun vs =>
    if cfg.clip then
      match bbox with
      | none => .error .missingBBox
      | some bb =>
        if vs.crs = bb.crs then .ok (cl bb vs) else .error .crsMismatch
    else .ok vs

/-- `vectors.total_bounds`: componentwise min/max of the per-geometry
bounds (rows without geometry are skipped, as geopandas ignores missing
geometries; the empty case is unreachable after a successful load). -/
def totalBounds (gs : List GeomJson) : Bounds :=
  match gs with
  | [] => ⟨0, 0, 0, 0⟩
  | g :: rest =>
    rest.foldl
      (fun b h => ⟨min b.minx h.minx, min b.miny h.miny, max b.maxx h.maxx, max b.maxy h.maxy⟩)
      ⟨g.minx, g.miny, g.maxx, g.maxy⟩

/-- Lines 274–275 of `execute`: the effective bbox is the explicit
argument, defaulting to the supplied patch's bbox when absent. -/
def resolveBBox (eopatch : Option EOPatch) (bbox : Option BBoxM) : Option BBoxM :=
  match bbox, eopatch with
  | none, some p => p.bbox
  | b, _ => b

/-- Line 279 of `execute`:
`final_bbox = bbox or BBox(vectors.total_bounds, crs=CRS(vectors.crs))` —
the resolved bbox when present, else the total bounds of the loaded
(pre-reproject) geometry collection in the dataset CRS. -/
def vecFinalBBox (vectors : GeoDataFrame) (bbox : Option BBoxM) : BBoxM :=
  bbox.getD ⟨totalBounds (vectors.rows.filterMap Feature.geometry), vectors.crs⟩

/-- Lines 281–283 of `execute`: the patch the vector layer is written
into — the supplied patch (given the final bbox when it lacks one), or a
fresh patch carrying the final bbox. -/
def vecBasePatch (vectors : GeoDataFrame) (eopatch : Option EOPatch)
    (bbox : Option BBoxM) : EOPatch :=
  let finalBBox := vecFinalBBox vectors bbox
  let patch0 := eopatch.getD { bbox := some finalBBox, layers := [] }
  if patch0.bbox = none then { patch0 with bbox := some finalBBox } else patch0

/-- `GeopediaVectorImportTask.execute`: resolve the bbox, load the
features, compute the final bbox, create the patch if absent (assigning
it the final bbox when it has none), reproject/clip, and write the
result into the configured vector layer. -/
def executeVector (cfg : VectorTaskCfg) (tr : TransformFn) (cl : ClipFn)
    (fetched : List Feature) (eopatch : Option EOPatch) (bboxArg : Option BBoxM) :
    Except GeoErr EOPatch :=
  let bbox := resolveBBox eopatch bboxArg
  (loadVectorData fetched).bind fun vectors =>
    (reprojectAndClip cfg tr cl vectors bbox).map fun v =>
      setLayer (vecBasePatch vectors eopatch bbox) cfg.featureType cfg.featureName
        (.vectorLayer v)

/-! ## Helper lemmas -/

theorem getLayer_setLayer_same (p : EOPatch) (ft : FeatureType) (nm : String) (d : LayerData) :
    getLayer (setLayer p ft nm d) ft nm = some d := by
  simp [getLayer, setLayer, List.find?]

theorem find?_filter_ne (l : List ((FeatureType × String) × LayerData))
    (k k' : FeatureType × String) (hne : k' ≠ k) :
    (l.filter fun e => decide (e.1 ≠ k)).find? (fun e => decide (e.1 = k')) =
      l.find? fun e => decide (e.1 = k') := by
  induction l with
  | nil => rfl
  | cons e l ih =>
    rw [List.filter_cons]
    by_cases he : e.1 = k
    · have h2 : (decide (e.1 = k')) = false := by
        simp only [decide_eq_false_iff_not]
        intro h; exact hne (h ▸ he ▸ rfl)
      rw [if_neg (by simp [he]), List.find?_cons, h2]
      exact ih
    · rw [if_pos (by simp [he])]
      by_cases h2 : e.1 = k'
      · rw [List.find?_cons, List.find?_cons, decide_eq_true h2]
      · rw [List.find?_cons, List.find?_cons, decide_eq_false h2]
        exact ih

theorem getLayer_setLayer_other (p : EOPatch) (ft ft' : FeatureType) (nm nm' : String)
    (d : LayerData) (hne : (ft', nm') ≠ (ft, nm)) :
    getLayer (setLayer p ft nm d) ft' nm' = getLayer p ft' nm' := by
  have h2 : (decide (((ft, nm) : FeatureType × String) = (ft', nm'))) = false := by
    simp only [decide_eq_false_iff_not]
    intro h; exact hne h.symm
  simp only [getLayer, setLayer, List.find?, h2]
  rw [find?_filter_ne _ _ _ hne]

theorem setLayer_bbox (p : EOPatch) (ft : FeatureType) (nm : String) (d : LayerData) :
    (setLayer p ft nm d).bbox = p.bbox := rfl

theorem setLayer_setLayer (p : EOPatch) (ft : FeatureType) (nm : String) (d d' : LayerData) :
    setLayer (setLayer p ft nm d) ft nm d' = setLayer p ft nm d' := by
  simp only [setLayer, List.filter_cons]
  congr 1
  have h1 : (decide (((ft, nm) : FeatureType × String) ≠ (ft, nm))) = false := by simp
  simp only [h1, if_neg, List.filter_filter, Bool.and_self]
  simp

/-- The multi-class fold computes, for any accumulator, the label of the
last class matching the pixel (or the accumulator when none match). -/
theorem foldl_classify_eq_lastMatch (tol : ℚ) (px : Pixel) (classes : List (ℤ × List ℤ))
    (acc : ℤ) :
    classes.foldl (fun a c => if meanAbsDiff px c.2 < tol then c.1 else a) acc =
      ((classes.filter fun c => decide (meanAbsDiff px c.2 < tol)).getLast?).elim acc
        Prod.fst := by
  induction classes using List.reverseRecOn with
  | nil => rfl
  | append_singleton cs c ih =>
    rw [List.foldl_append, List.filter_append]
    by_cases hc : meanAbsDiff px c.2 < tol
    · simp only [List.foldl, List.filter, decide_eq_true hc, List.getLast?_concat]
      simp [hc]
    · simp only [List.foldl, List.filter, decide_eq_false hc]
      simp only [List.append_nil]
      simp [hc, ih]

/-- The sum of absolute per-channel differences (the numerator of
`meanAbsDiff`). -/
def sumAbsDiff (px : Pixel) (ref : List ℤ) : ℤ :=
  ((px.zip ref).map fun c => |((c.1 : ℤ) - c.2)|).sum

theorem meanAbsDiff_eq_div (px : Pixel) (ref : List ℤ) :
    meanAbsDiff px ref = (sumAbsDiff px ref : ℚ) / (px.length : ℚ) := rfl

/-- Integer characterization of a strict tolerance comparison with an
integer threshold, usable for concrete evaluation. -/
theorem meanAbsDiff_lt_intCast (px : Pixel) (ref : List ℤ) (m : ℤ) (hlen : 0 < px.length) :
    meanAbsDiff px ref < (m : ℚ) ↔ sumAbsDiff px ref < m * (px.length : ℤ) := by
  rw [meanAbsDiff_eq_div, div_lt_iff₀ (by exact_mod_cast hlen)]
  constructor
  · intro h
    exact_mod_cast h
  · intro h
    exact_mod_cast h

/-- Integer characterization of a non-strict tolerance comparison. -/
theorem intCast_le_meanAbsDiff (px : Pixel) (ref : List ℤ) (m : ℤ) (hlen : 0 < px.length) :
    (m : ℚ) ≤ meanAbsDiff px ref ↔ m * (px.length : ℤ) ≤ sumAbsDiff px ref := by
  rw [meanAbsDiff_eq_div, le_div_iff₀ (by exact_mod_cast hlen)]
  constructor
  · intro h
    exact_mod_cast h
  · intro h
    exact_mod_cast h

/-- A pixel is at mean distance zero from its own colour. -/
theorem meanAbsDiff_self (px : Pixel) :
    meanAbsDiff px (px.map fun n => (n : ℤ)) = 0 := by
  have h : sumAbsDiff px (px.map fun n => (n : ℤ)) = 0 := by
    induction px with
    | nil => rfl
    | cons a l ih =>
      simp only [sumAbsDiff, List.map, List.zip_cons_cons, List.sum_cons] at *
      simpa using ih
  rw [meanAbsDiff_eq_div, h]
  simp

/-! ## Claim theorems -/

/-- C1: In multi-class mode, before reprojection, a pixel's value is the
label of the class matching it (mean absolute per-channel difference of
the pixel's colour and the class's reference colour strictly below the
tolerance) appearing latest in the mapping's iteration order; a pixel
matching no class keeps the no-data fill value.  (Stated as a complete
characterization: the classified value equals the label of the last
matching class of the iteration order, or the no-data value when the
filter of matching classes is empty.) -/
theorem multiclass_last_match_rule (noData : ℤ) (tol : ℚ) (classes : List (ℤ × List ℤ))
    (tile : Pos → Pixel) (pos : Pos) :
    multiclassRaster noData tol classes tile pos =
      ((classes.filter fun c => decide (meanAbsDiff (tile pos) c.2 < tol)).getLast?).elim
        noData Prod.fst :=
  foldl_classify_eq_lastMatch tol (tile pos) classes noData

/-- C3: In binary mode, before reprojection, a pixel whose alpha (last)
channel is zero is classified as 0, and a pixel whose alpha channel is
nonzero is classified as the configured scalar label. -/
theorem binary_mask_alpha_rule (v : ℤ) (tile : Pos → Pixel) (pos : Pos) :
    ((tile pos).getLastD 0 = 0 → toBinaryMask v tile pos = 0) ∧
      ((tile pos).getLastD 0 ≠ 0 → toBinaryMask v tile pos = v) := by
  constructor
  · intro h
    show toBinaryMaskPixel v (tile pos) = 0
    rw [toBinaryMaskPixel, h, if_neg (lt_irrefl 0), zero_mul]
  · intro h
    show toBinaryMaskPixel v (tile pos) = v
    rw [toBinaryMaskPixel, if_pos (Nat.pos_of_ne_zero h), one_mul]

theorem binary_mask_alpha_rule_witness :
    toBinaryMask 7 (fun _ => [1, 2, 3, 0]) (0, 0) = 0 ∧
      toBinaryMask 7 (fun _ => [1, 2, 3, 9]) (0, 0) = 7 :=
  ⟨(binary_mask_alpha_rule 7 (fun _ => [1, 2, 3, 0]) (0, 0)).1 rfl,
    (binary_mask_alpha_rule 7 (fun _ => [1, 2, 3, 9]) (0, 0)).2 (by decide)⟩

/-- C5: With a positive tolerance, pairwise-distinct reference colours
(classes sharing the exact reference colour of the pixel must carry the
same label) and well-separation (every class whose reference colour
differs from the pixel's colour is at mean distance at least the
tolerance), a pixel whose colour exactly equals a class's reference
colour receives that class's label, wherever the class sits in the
iteration order. -/
theorem multiclass_exact_colour_label (noData : ℤ) (tol : ℚ) (classes : List (ℤ × List ℤ))
    (px : Pixel) (label : ℤ)
    (ht : 0 < tol)
    (hmem : (label, px.map fun n => (n : ℤ)) ∈ classes)
    (hdup : ∀ c ∈ classes, c.2 = (px.map fun n => (n : ℤ)) →
      c = (label, px.map fun n => (n : ℤ)))
    (hsep : ∀ c ∈ classes, c.2 ≠ (px.map fun n => (n : ℤ)) → tol ≤ meanAbsDiff px c.2) :
    mapFromMulticlassPixel noData tol classes px = label := by
  classical
  set ref := px.map fun n => (n : ℤ) with href
  have hmatch : meanAbsDiff px ref < tol := by
    rw [href, meanAbsDiff_self]
    exact ht
  rw [mapFromMulticlassPixel, foldl_classify_eq_lastMatch]
  set flt := classes.filter fun c => decide (meanAbsDiff px c.2 < tol) with hflt
  have hne : flt ≠ [] := by
    intro hnil
    have : (label, ref) ∈ flt := by
      rw [hflt, List.mem_filter]
      exact ⟨hmem, decide_eq_true hmatch⟩
    rw [hnil] at this
    exact List.not_mem_nil _ this
  have hall : ∀ c ∈ flt, c = (label, ref) := by
    intro c hc
    rw [hflt, List.mem_filter] at hc
    obtain ⟨hcm, hclt⟩ := hc
    have hlt : meanAbsDiff px c.2 < tol := of_decide_eq_true hclt
    by_cases hcr : c.2 = ref
    · exact hdup c hcm hcr
    · exact absurd hlt (not_lt.mpr (hsep c hcm hcr))
  obtain ⟨x, hx⟩ := Option.isSome_iff_exists.mp (List.getLast?_isSome.mpr hne)
  have hxmem : x ∈ flt := List.mem_of_mem_getLast? (by rw [hx]; rfl)
  rw [hx, hall x hxmem]
  rfl

theorem multiclass_exact_colour_label_witness :
    mapFromMulticlassPixel 0 ((2 : ℤ) : ℚ) [(3, [0, 0, 0, 255]), (7, [100, 100, 100, 255])]
      [100, 100, 100, 255] = 7 := by
  refine multiclass_exact_colour_label 0 ((2 : ℤ) : ℚ)
      [(3, [0, 0, 0, 255]), (7, [100, 100, 100, 255])] [100, 100, 100, 255] 7
      (by decide) (by decide) (by decide) ?_
  intro c hc hne
  rcases List.mem_cons.mp hc with h | h
  · subst h
    exact (intCast_le_meanAbsDiff [100, 100, 100, 255] [0, 0, 0, 255] 2 (by decide)).mpr
      (by decide)
  · rcases List.mem_cons.mp h with h' | h'
    · subst h'
      exact absurd (by decide) hne
    · exact absurd h' (List.not_mem_nil c)

theorem squeeze_appendChannel (ft : FeatureType) (d : RasterData) :
    (appendChannelIfNeeded ft d).squeeze = d.squeeze := by
  cases d with
  | two g =>
    rw [appendChannelIfNeeded]
    by_cases h : ft = FeatureType.maskTimeless
    · rw [if_pos h]; rfl
    · rw [if_neg h]
  | three g => rfl

/-- C2: Merge policy of the raster importer.  Binary mode: with an
existing target layer, the base is that layer squeezed to 2-D and cells
are overwritten exactly where the reprojected raster is nonzero; without
one, the base is the no-data fill.  Multi-class mode: the written layer
ignores any pre-existing content of the patch (two runs on patches with
equal bbox write equal layers, whatever their layers hold). -/
theorem raster_merge_policy :
    (∀ (cfg : RasterTaskCfg) (rp : ReprojFn) (p : EOPatch) (bbox : BBoxM)
        (tile : Pos → Pixel) (v : ℤ) (d : RasterData) (pos : Pos),
      getLayer p cfg.featureType cfg.featureName = some (.rasterLayer d) →
      (mapFromBinaries cfg rp p bbox tile v).squeeze pos =
        (if rp bbox (toBinaryMask v tile) pos ≠ 0 then rp bbox (toBinaryMask v tile) pos
         else d.squeeze pos)) ∧
    (∀ (cfg : RasterTaskCfg) (rp : ReprojFn) (p : EOPatch) (bbox : BBoxM)
        (tile : Pos → Pixel) (v : ℤ) (pos : Pos),
      getLayer p cfg.featureType cfg.featureName = none →
      (mapFromBinaries cfg rp p bbox tile v).squeeze pos =
        (if rp bbox (toBinaryMask v tile) pos ≠ 0 then rp bbox (toBinaryMask v tile) pos
         else cfg.noDataVal)) ∧
    (∀ (cfg : RasterTaskCfg) (rp : ReprojFn) (tile : Pos → Pixel)
        (classes : List (ℤ × List ℤ)) (p q p' q' : EOPatch),
      cfg.rasterValue = .multiclass classes →
      p.bbox = q.bbox →
      executeRaster cfg rp tile p = .ok p' →
      executeRaster cfg rp tile q = .ok q' →
      getLayer p' cfg.featureType cfg.featureName =
        getLayer q' cfg.featureType cfg.featureName) := by
  refine ⟨?_, ?_, ?_⟩
  · intro cfg rp p bbox tile v d pos h
    have hd : (mapFromBinaries cfg rp p bbox tile v).squeeze pos =
        (if rp bbox (toBinaryMask v tile) pos ≠ 0 then rp bbox (toBinaryMask v tile) pos
         else squeezeBase cfg.noDataVal (getLayer p cfg.featureType cfg.featureName) pos) :=
      rfl
    rw [hd, h]
    rfl
  · intro cfg rp p bbox tile v pos h
    have hd : (mapFromBinaries cfg rp p bbox tile v).squeeze pos =
        (if rp bbox (toBinaryMask v tile) pos ≠ 0 then rp bbox (toBinaryMask v tile) pos
         else squeezeBase cfg.noDataVal (getLayer p cfg.featureType cfg.featureName) pos) :=
      rfl
    rw [hd, h]
    rfl
  · intro cfg rp tile classes p q p' q' hm hbb hp hq
    obtain ⟨bp, ldp, hbp, hldp, hp'⟩ := executeRaster_ok_elim cfg rp tile p p' hp
    obtain ⟨bq, ldq, hbq, hldq, hq'⟩ := executeRaster_ok_elim cfg rp tile q q' hq
    have hb : bp = bq := by
      rw [hbp, hbq] at hbb
      exact Option.some_injective _ hbb
    rw [hp', hq', getLayer_setLayer_same, getLayer_setLayer_same,
      classifiedRaster, classifiedRaster, hm, hb]
    rfl

def c2cfgB : RasterTaskCfg := ⟨.mask, "M", .scalar 5, 0, 2⟩

def c2cfgM : RasterTaskCfg := ⟨.maskTimeless, "LULC", .multiclass [(1, [10, 10, 10, 255])], 0, 2⟩

def c2rp : ReprojFn := fun _ g => g

def c2tile : Pos → Pixel := fun _ => [10, 10, 10, 255]

def c2bb : BBoxM := ⟨⟨0, 0, 1, 1⟩, "EPSG:3857"⟩

def c2dExisting : RasterData := .two fun _ => 9

def c2p1 : EOPatch := ⟨some c2bb, [((FeatureType.mask, "M"), .rasterLayer c2dExisting)]⟩

def c2p2 : EOPatch := ⟨some c2bb, []⟩

def c2pM : EOPatch :=
  ⟨some c2bb, [((FeatureType.mask, "IS_DATA"), .rasterLayer (.two fun _ => 1)),
    ((FeatureType.maskTimeless, "LULC"), .rasterLayer (.two fun _ => 3))]⟩

def c2qM : EOPatch := ⟨some c2bb, [((FeatureType.mask, "IS_DATA"), .rasterLayer (.two fun _ => 1))]⟩

def c2pM' : EOPatch :=
  setLayer c2pM FeatureType.maskTimeless "LULC"
    (.rasterLayer (appendChannelIfNeeded FeatureType.maskTimeless
      (mapFromMulticlass c2cfgM c2rp c2pM c2bb c2tile [(1, [10, 10, 10, 255])])))

def c2qM' : EOPatch :=
  setLayer c2qM FeatureType.maskTimeless "LULC"
    (.rasterLayer (appendChannelIfNeeded FeatureType.maskTimeless
      (mapFromMulticlass c2cfgM c2rp c2qM c2bb c2tile [(1, [10, 10, 10, 255])])))

theorem raster_merge_policy_witness :
    ((mapFromBinaries c2cfgB c2rp c2p1 c2bb c2tile 5).squeeze (0, 0) =
      (if c2rp c2bb (toBinaryMask 5 c2tile) (0, 0) ≠ 0 then
        c2rp c2bb (toBinaryMask 5 c2tile) (0, 0)
       else c2dExisting.squeeze (0, 0))) ∧
    ((mapFromBinaries c2cfgB c2rp c2p2 c2bb c2tile 5).squeeze (0, 0) =
      (if c2rp c2bb (toBinaryMask 5 c2tile) (0, 0) ≠ 0 then
        c2rp c2bb (toBinaryMask 5 c2tile) (0, 0)
       else c2cfgB.noDataVal)) ∧
    (getLayer c2pM' FeatureType.maskTimeless "LULC" =
      getLayer c2qM' FeatureType.maskTimeless "LULC") :=
  ⟨raster_merge_policy.1 c2cfgB c2rp c2p1 c2bb c2tile 5 c2dExisting (0, 0) rfl,
    raster_merge_policy.2.1 c2cfgB c2rp c2p2 c2bb c2tile 5 (0, 0) rfl,
    raster_merge_policy.2.2 c2cfgM c2rp c2tile [(1, [10, 10, 10, 255])] c2pM c2qM c2pM' c2qM'
      rfl rfl rfl rfl⟩

/-- Re-running the binary merge on a patch whose target layer already
holds a merge result (with the channel-dimension adjustment) absorbs
into the original merge: cells where the reprojected raster is nonzero
are rewritten with the same value, the rest already hold the base. -/
theorem mapFromBinaries_self_absorb (cfg : RasterTaskCfg) (rp : ReprojFn) (p p' : EOPatch)
    (bbox : BBoxM) (tile : Pos → Pixel) (v : ℤ)
    (hlayer : getLayer p' cfg.featureType cfg.featureName =
      some (.rasterLayer (appendChannelIfNeeded cfg.featureType
        (mapFromBinaries cfg rp p bbox tile v)))) :
    mapFromBinaries cfg rp p' bbox tile v = mapFromBinaries cfg rp p bbox tile v := by
  have e : ∀ P : EOPatch, mapFromBinaries cfg rp P bbox tile v = .two (fun pos =>
      if rp bbox (toBinaryMask v tile) pos ≠ 0 then rp bbox (toBinaryMask v tile) pos
      else squeezeBase cfg.noDataVal (getLayer P cfg.featureType cfg.featureName) pos) :=
    fun P => rfl
  rw [e p', hlayer]
  conv_rhs => rw [e p]
  congr 1
  funext pos
  by_cases hn : rp bbox (toBinaryMask v tile) pos = 0
  · rw [if_neg (fun hc => hc hn), if_neg (fun hc => hc hn)]
    have h1 : squeezeBase cfg.noDataVal (some (.rasterLayer (appendChannelIfNeeded
        cfg.featureType (mapFromBinaries cfg rp p bbox tile v)))) =
        (appendChannelIfNeeded cfg.featureType
          (mapFromBinaries cfg rp p bbox tile v)).squeeze := rfl
    rw [h1, squeeze_appendChannel]
    have h2 : (mapFromBinaries cfg rp p bbox tile v).squeeze pos =
        (if rp bbox (toBinaryMask v tile) pos ≠ 0 then rp bbox (toBinaryMask v tile) pos
         else squeezeBase cfg.noDataVal (getLayer p cfg.featureType cfg.featureName) pos) :=
      rfl
    rw [h2, if_neg (fun hc => hc hn)]
  · rw [if_pos hn, if_pos hn]

/-- C4: Binary-mode idempotence of the raster importer: running
`execute` twice with the same configuration, the same reprojection
behaviour and identical remote tile data equals running it once (both
for successful runs and for failing ones, where the error propagates). -/
theorem binary_execute_idempotent (cfg : RasterTaskCfg) (rp : ReprojFn) (tile : Pos → Pixel)
    (p : EOPatch) (v : ℤ) (hv : cfg.rasterValue = .scalar v) :
    (executeRaster cfg rp tile p).bind (executeRaster cfg rp tile) =
      executeRaster cfg rp tile p := by
  cases hres : executeRaster cfg rp tile p with
  | error e => rfl
  | ok p' =>
    show executeRaster cfg rp tile p' = Except.ok p'
    obtain ⟨bbox, ld, hbb, hld, hp'⟩ := executeRaster_ok_elim cfg rp tile p p' hres
    have hbb' : p'.bbox = some bbox := by rw [hp', setLayer_bbox]; exact hbb
    have hmask' : ∃ ld', getLayer p' FeatureType.mask "IS_DATA" = some ld' := by
      by_cases hk : ((FeatureType.mask, "IS_DATA") : FeatureType × String) =
          (cfg.featureType, cfg.featureName)
      · have hft : FeatureType.mask = cfg.featureType := congrArg Prod.fst hk
        have hnm : "IS_DATA" = cfg.featureName := congrArg Prod.snd hk
        exact ⟨.rasterLayer (appendChannelIfNeeded cfg.featureType
            (classifiedRaster cfg rp p bbox tile)),
          by rw [hp', hft, hnm, getLayer_setLayer_same]⟩
      · exact ⟨ld, by rw [hp', getLayer_setLayer_other _ _ _ _ _ _ hk]; exact hld⟩
    obtain ⟨ld', hld'⟩ := hmask'
    have habsorb : mapFromBinaries cfg rp p' bbox tile v = mapFromBinaries cfg rp p bbox tile v := by
      refine mapFromBinaries_self_absorb cfg rp p p' bbox tile v ?_
      rw [hp', getLayer_setLayer_same, classifiedRaster, hv]
    unfold executeRaster
    simp only [hld', hbb', hv, habsorb]
    rw [hp', setLayer_setLayer, classifiedRaster, hv]

def c4cfg : RasterTaskCfg := ⟨.maskTimeless, "LULC", .scalar 5, 0, 2⟩

def c4rp : ReprojFn := fun _ g => g

def c4tile : Pos → Pixel := fun _ => [10, 10, 10, 255]

def c4p : EOPatch :=
  ⟨some ⟨⟨0, 0, 1, 1⟩, "EPSG:4326"⟩,
    [((FeatureType.mask, "IS_DATA"), .rasterLayer (.two fun _ => 1))]⟩

theorem binary_execute_idempotent_witness :
    (executeRaster c4cfg c4rp c4tile c4p).bind (executeRaster c4cfg c4rp c4tile) =
      executeRaster c4cfg c4rp c4tile c4p :=
  binary_execute_idempotent c4cfg c4rp c4tile c4p 5 rfl

/-- C10: When the feature-iteration client yields zero features, the
vector importer fails (Python raises IndexError at
`geopedia_features[0]`, before CRS inference) for every patch and bbox
argument, and never returns a patch — in particular never one holding an
empty vector layer. -/
theorem vector_empty_fetch_error (cfg : VectorTaskCfg) (tr : TransformFn) (cl : ClipFn)
    (p : Option EOPatch) (bb : Option BBoxM) :
    executeVector cfg tr cl [] p bb = .error .indexError := rfl

theorem reprojectAndClip_reproject_noBBox (cfg : VectorTaskCfg) (tr : TransformFn)
    (cl : ClipFn) (vectors : GeoDataFrame) (h : cfg.reproject = true) :
    reprojectAndClip cfg tr cl vectors none = .error .missingBBox := by
  obtain ⟨ft, nm, rep, c⟩ := cfg
  subst h
  rfl

theorem reprojectAndClip_clip_mismatch (cfg : VectorTaskCfg) (tr : TransformFn) (cl : ClipFn)
    (vectors : GeoDataFrame) (bbv : BBoxM) (h1 : cfg.reproject = false) (h2 : cfg.clip = true)
    (h3 : vectors.crs ≠ bbv.crs) :
    reprojectAndClip cfg tr cl vectors (some bbv) = .error .crsMismatch := by
  obtain ⟨ft, nm, rep, c⟩ := cfg
  subst h1
  subst h2
  show (if vectors.crs = bbv.crs then Except.ok (cl bbv vectors)
    else Except.error GeoErr.crsMismatch) = _
  rw [if_neg h3]

/-- C6: Reprojection enabled with no resolved bounding region fails with
the missing-bounding-region error; clipping enabled with reprojection
disabled and a CRS mismatch between the loaded geometries and the
resolved bounding region fails with the CRS-mismatch error.  In both
cases no patch is returned (the result is an error). -/
theorem vector_precondition_errors :
    (∀ (cfg : VectorTaskCfg) (tr : TransformFn) (cl : ClipFn) (fetched : List Feature)
        (gdf : GeoDataFrame) (p : Option EOPatch) (bb : Option BBoxM),
      loadVectorData fetched = .ok gdf →
      cfg.reproject = true →
      resolveBBox p bb = none →
      executeVector cfg tr cl fetched p bb = .error .missingBBox) ∧
    (∀ (cfg : VectorTaskCfg) (tr : TransformFn) (cl : ClipFn) (fetched : List Feature)
        (gdf : GeoDataFrame) (p : Option EOPatch) (bb : Option BBoxM) (bbv : BBoxM),
      loadVectorData fetched = .ok gdf →
      cfg.reproject = false →
      cfg.clip = true →
      resolveBBox p bb = some bbv →
      gdf.crs ≠ bbv.crs →
      executeVector cfg tr cl fetched p bb = .error .crsMismatch) := by
  constructor
  · intro cfg tr cl fetched gdf p bb hload hrep hrb
    simp only [executeVector, hrb, hload, Except.bind]
    rw [reprojectAndClip_reproject_noBBox cfg tr cl gdf hrep]
    rfl
  · intro cfg tr cl fetched gdf p bb bbv hload hrep hclip hrb hcrs
    simp only [executeVector, hrb, hload, Except.bind]
    rw [reprojectAndClip_clip_mismatch cfg tr cl gdf bbv hrep hclip hcrs]
    rfl

def c6feat : Feature := ⟨some ⟨"EPSG:4326", 0, 0, 1, 1⟩, [("id", "1")]⟩

def c6tr : TransformFn := fun _ _ f => f

def c6cl : ClipFn := fun _ g => g

def c6bbv : BBoxM := ⟨⟨0, 0, 1, 1⟩, "EPSG:32633"⟩

theorem vector_precondition_errors_witness :
    (executeVector ⟨.vectorTimeless, "V", true, false⟩ c6tr c6cl [c6feat] none none =
      .error .missingBBox) ∧
    (executeVector ⟨.vectorTimeless, "V", false, true⟩ c6tr c6cl [c6feat] none (some c6bbv) =
      .error .crsMismatch) :=
  ⟨vector_precondition_errors.1 ⟨.vectorTimeless, "V", true, false⟩ c6tr c6cl [c6feat]
      ⟨"EPSG:4326", [c6feat]⟩ none none rfl rfl rfl,
    vector_precondition_errors.2 ⟨.vectorTimeless, "V", false, true⟩ c6tr c6cl [c6feat]
      ⟨"EPSG:4326", [c6feat]⟩ none (some c6bbv) c6bbv rfl rfl rfl rfl (by decide)⟩

theorem executeVector_noFlags_eval (cft : FeatureType) (cnm : String) (tr : TransformFn)
    (cl : ClipFn) (f : Feature) (rest : List Feature) (g : GeomJson)
    (hg : f.geometry = some g) :
    executeVector ⟨cft, cnm, false, false⟩ tr cl (f :: rest) none none =
      .ok (setLayer ⟨some ⟨totalBounds ((f :: rest).filterMap Feature.geometry), g.crsName⟩, []⟩
        cft cnm (.vectorLayer ⟨g.crsName, f :: rest⟩)) := by
  rw [executeVector, loadVectorData, hg]
  rfl

theorem executeVector_reproject_noBBox_eval (cft : FeatureType) (cnm : String) (cclip : Bool)
    (tr : TransformFn) (cl : ClipFn) (f : Feature) (rest : List Feature) (g : GeomJson)
    (hg : f.geometry = some g) :
    executeVector ⟨cft, cnm, true, cclip⟩ tr cl (f :: rest) none none =
      .error .missingBBox := by
  rw [executeVector, loadVectorData, hg]
  rfl

theorem executeVector_clip_noBBox_eval (cft : FeatureType) (cnm : String)
    (tr : TransformFn) (cl : ClipFn) (f : Feature) (rest : List Feature) (g : GeomJson)
    (hg : f.geometry = some g) :
    executeVector ⟨cft, cnm, false, true⟩ tr cl (f :: rest) none none =
      .error .missingBBox := by
  rw [executeVector, loadVectorData, hg]
  rfl

/-- C7: Invoked with no patch and no bounding region, on success the
returned patch's bounding region is the bounding box of the full extent
of the fetched geometry collection, tagged with the dataset's own CRS
(inferred from the first feature), and the configured vector layer holds
exactly the fetched feature records.  (Success requires both `reproject`
and `clip` to be disabled, since no bounding region is available.) -/
theorem vector_fresh_patch_bounds (cfg : VectorTaskCfg) (tr : TransformFn) (cl : ClipFn)
    (f : Feature) (rest : List Feature) (g : GeomJson) (p' : EOPatch)
    (hg : f.geometry = some g)
    (h : executeVector cfg tr cl (f :: rest) none none = .ok p') :
    p'.bbox = some ⟨totalBounds ((f :: rest).filterMap Feature.geometry), g.crsName⟩ ∧
      getLayer p' cfg.featureType cfg.featureName =
        some (.vectorLayer ⟨g.crsName, f :: rest⟩) := by
  obtain ⟨cft, cnm, crep, cclip⟩ := cfg
  cases crep with
  | true =>
    rw [executeVector_reproject_noBBox_eval cft cnm cclip tr cl f rest g hg] at h
    exact absurd h (by simp)
  | false =>
    cases cclip with
    | true =>
      rw [executeVector_clip_noBBox_eval cft cnm tr cl f rest g hg] at h
      exact absurd h (by simp)
    | false =>
      rw [executeVector_noFlags_eval cft cnm tr cl f rest g hg] at h
      have h' : p' = setLayer
          ⟨some ⟨totalBounds ((f :: rest).filterMap Feature.geometry), g.crsName⟩, []⟩
          cft cnm (.vectorLayer ⟨g.crsName, f :: rest⟩) :=
        (Except.ok.injEq _ _ ▸ h).symm
      rw [h']
      exact ⟨rfl, getLayer_setLayer_same _ _ _ _⟩

def c7f1 : Feature := ⟨some ⟨"EPSG:4326", 0, 0, 10, 10⟩, [("id", "1")]⟩

def c7f2 : Feature := ⟨some ⟨"EPSG:4326", 0, 0, 5, 5⟩, [("id", "2")]⟩

def c7f3 : Feature := ⟨some ⟨"EPSG:4326", 2, 3, 10, 10⟩, [("id", "3")]⟩

def c7cfg : VectorTaskCfg := ⟨.vectorTimeless, "LPIS", false, false⟩

def c7tr : TransformFn := fun _ _ f => f

def c7cl : ClipFn := fun _ g => g

def c7p : EOPatch :=
  setLayer ⟨some ⟨totalBounds ([c7f1, c7f2, c7f3].filterMap Feature.geometry), "EPSG:4326"⟩, []⟩
    FeatureType.vectorTimeless "LPIS" (.vectorLayer ⟨"EPSG:4326", [c7f1, c7f2, c7f3]⟩)

theorem vector_fresh_patch_bounds_witness :
    c7p.bbox = some ⟨totalBounds ([c7f1, c7f2, c7f3].filterMap Feature.geometry), "EPSG:4326"⟩ ∧
      getLayer c7p FeatureType.vectorTimeless "LPIS" =
        some (.vectorLayer ⟨"EPSG:4326", [c7f1, c7f2, c7f3]⟩) :=
  vector_fresh_patch_bounds c7cfg c7tr c7cl c7f1 [c7f2, c7f3] ⟨"EPSG:4326", 0, 0, 10, 10⟩ c7p
    rfl rfl

theorem executeVector_ok_elim (cfg : VectorTaskCfg) (tr : TransformFn) (cl : ClipFn)
    (fetched : List Feature) (eopatch : Option EOPatch) (bboxArg : Option BBoxM)
    (p' : EOPatch) (h : executeVector cfg tr cl fetched eopatch bboxArg = Except.ok p') :
    ∃ gdf v, loadVectorData fetched = .ok gdf ∧
      reprojectAndClip cfg tr cl gdf (resolveBBox eopatch bboxArg) = .ok v ∧
      p' = setLayer (vecBasePatch gdf eopatch (resolveBBox eopatch bboxArg))
        cfg.featureType cfg.featureName (.vectorLayer v) := by
  rw [executeVector] at h
  cases hl : loadVectorData fetched with
  | error e =>
    rw [hl] at h
    exact absurd h (by simp [Except.bind])
  | ok gdf =>
    rw [hl] at h
    simp only [Except.bind] at h
    cases hr : reprojectAndClip cfg tr cl gdf (resolveBBox eopatch bboxArg) with
    | error e =>
      rw [hr] at h
      exact absurd h (by simp [Except.map])
    | ok v =>
      rw [hr] at h
      simp only [Except.map] at h
      exact ⟨gdf, v, rfl, hr, (Except.ok.injEq _ _ ▸ h).symm⟩

/-! ## C8: channel-dimension adjustment -/

/-- Modelled from the spec: the spec's data model groups patch layers
into categories, among them the timeless-raster category; in the
`FeatureType` taxonomy this category comprises the timeless data type
(`DATA_TIMELESS`) and the timeless mask type (`MASK_TIMELESS`). -/
def specTimelessRaster : FeatureType → Bool
  | .dataTimeless => true
  | .maskTimeless => true
  | _ => false

/-- Observer for a written layer: `some true` when the stored raster
carries the trailing singleton channel axis, `some false` when it is
2-D, `none` for vector content. -/
def channelDimOf : LayerData → Option Bool
  | .rasterLayer (.two _) => some false
  | .rasterLayer (.three _) => some true
  | .vectorLayer _ => none

def c8cfg : RasterTaskCfg := ⟨.dataTimeless, "DEM", .scalar 5, 0, 2⟩

def c8rp : ReprojFn := fun _ g => g

def c8tile : Pos → Pixel := fun _ => [1, 2, 3, 255]

def c8p : EOPatch :=
  ⟨some ⟨⟨0, 0, 1, 1⟩, "EPSG:4326"⟩,
    [((FeatureType.mask, "IS_DATA"), .rasterLayer (.two fun _ => 1))]⟩

/-- C8 counterexample: with the output layer configured under
`DATA_TIMELESS` — a timeless-raster type per the spec's data model — a
successful run of the raster importer writes the 2-D result without
appending a channel dimension, because the code tests specifically for
`MASK_TIMELESS` (line 188), refuting the claim as stated. -/
theorem raster_channel_append_cex :
    specTimelessRaster FeatureType.dataTimeless = true ∧
      (executeRaster c8cfg c8rp c8tile c8p).map
          (fun q => (getLayer q FeatureType.dataTimeless "DEM").map channelDimOf) =
        Except.ok (some (some false)) :=
  ⟨rfl, rfl⟩

theorem channelDim_append (ft : FeatureType) (g : Grid) :
    channelDimOf (.rasterLayer (appendChannelIfNeeded ft (.two g))) =
      some (decide (ft = FeatureType.maskTimeless)) := by
  rw [appendChannelIfNeeded]
  by_cases h : ft = FeatureType.maskTimeless
  · rw [if_pos h, decide_eq_true h]
    rfl
  · rw [if_neg h, decide_eq_false h]
    rfl

theorem classifiedRaster_two (cfg : RasterTaskCfg) (rp : ReprojFn) (p : EOPatch)
    (bbox : BBoxM) (tile : Pos → Pixel) :
    ∃ g, classifiedRaster cfg rp p bbox tile = .two g := by
  rw [classifiedRaster]
  cases cfg.rasterValue with
  | scalar v => exact ⟨_, rfl⟩
  | multiclass classes => exact ⟨_, rfl⟩

/-- C8 (amended): for every successful run of the raster importer, the
written target layer carries a trailing singleton channel dimension
exactly when the configured output category is the timeless mask type
(`MASK_TIMELESS`); any other category — including the timeless data
type — receives the 2-D classified-and-merged result unchanged (the
merged result is always 2-D in this pipeline). -/
theorem raster_channel_append_amended (cfg : RasterTaskCfg) (rp : ReprojFn)
    (tile : Pos → Pixel) (p p' : EOPatch)
    (h : executeRaster cfg rp tile p = Except.ok p') :
    (getLayer p' cfg.featureType cfg.featureName).map channelDimOf =
      some (some (decide (cfg.featureType = FeatureType.maskTimeless))) := by
  obtain ⟨bbox, ld, hbb, hld, hp'⟩ := executeRaster_ok_elim cfg rp tile p p' h
  obtain ⟨g, hg⟩ := classifiedRaster_two cfg rp p bbox tile
  rw [hp', getLayer_setLayer_same, hg]
  show some (channelDimOf (.rasterLayer (appendChannelIfNeeded cfg.featureType (.two g)))) = _
  rw [channelDim_append]

def c8wcfg : RasterTaskCfg := ⟨.maskTimeless, "W", .scalar 5, 0, 2⟩

def c8wbb : BBoxM := ⟨⟨0, 0, 1, 1⟩, "EPSG:4326"⟩

def c8wp : EOPatch :=
  ⟨some c8wbb, [((FeatureType.mask, "IS_DATA"), .rasterLayer (.two fun _ => 1))]⟩

def c8wp' : EOPatch :=
  setLayer c8wp FeatureType.maskTimeless "W"
    (.rasterLayer (appendChannelIfNeeded FeatureType.maskTimeless
      (classifiedRaster c8wcfg c8rp c8wp c8wbb c8tile)))

theorem raster_channel_append_amended_witness :
    (getLayer c8wp' c8wcfg.featureType c8wcfg.featureName).map channelDimOf =
      some (some (decide (c8wcfg.featureType = FeatureType.maskTimeless))) :=
  raster_channel_append_amended c8wcfg c8rp c8tile c8wp c8wp' rfl

/-! ## C9: frame property -/

def c9cfg : VectorTaskCfg := ⟨.vectorTimeless, "V9", false, false⟩

def c9tr : TransformFn := fun _ _ f => f

def c9cl : ClipFn := fun _ g => g

def c9feat : Feature := ⟨some ⟨"EPSG:4326", 0, 0, 2, 2⟩, []⟩

def c9q : EOPatch := ⟨none, []⟩

/-- C9 counterexample: a successful run of the vector importer on a
supplied patch that lacks a bounding region mutates an attribute other
than the target layer — the returned patch's bounding region is set
(from `none` to the computed final bounding box), refuting the claim
that every other patch attribute is unchanged. -/
theorem patch_frame_cex :
    c9q.bbox = none ∧
      (executeVector c9cfg c9tr c9cl [c9feat] (some c9q) none).map EOPatch.bbox =
        Except.ok (some ⟨⟨0, 0, 2, 2⟩, "EPSG:4326"⟩) :=
  ⟨rfl, rfl⟩

theorem vecBasePatch_some (gdf : GeoDataFrame) (p : EOPatch) (bbox : Option BBoxM) :
    vecBasePatch gdf (some p) bbox =
      if p.bbox = none then { p with bbox := some (vecFinalBBox gdf bbox) } else p := rfl

/-- C9 (amended): for every successful execute of either component on a
supplied patch, the only layer written is the configured target layer
(every other layer of every category is unchanged), and the bounding
region is unchanged — except that the vector importer, when the
supplied patch has no bounding region, assigns it the computed final
bounding region. -/
theorem patch_frame_amended :
    (∀ (cfg : RasterTaskCfg) (rp : ReprojFn) (tile : Pos → Pixel) (p p' : EOPatch),
      executeRaster cfg rp tile p = Except.ok p' →
      p'.bbox = p.bbox ∧
        ∀ (ft : FeatureType) (nm : String),
          (ft, nm) ≠ (cfg.featureType, cfg.featureName) →
          getLayer p' ft nm = getLayer p ft nm) ∧
    (∀ (cfg : VectorTaskCfg) (tr : TransformFn) (cl : ClipFn) (fetched : List Feature)
        (p : EOPatch) (bb : Option BBoxM) (p' : EOPatch),
      executeVector cfg tr cl fetched (some p) bb = Except.ok p' →
      (p.bbox ≠ none → p'.bbox = p.bbox) ∧
        ∀ (ft : FeatureType) (nm : String),
          (ft, nm) ≠ (cfg.featureType, cfg.featureName) →
          getLayer p' ft nm = getLayer p ft nm) := by
  constructor
  · intro cfg rp tile p p' h
    obtain ⟨bbox, ld, hbb, hld, hp'⟩ := executeRaster_ok_elim cfg rp tile p p' h
    refine ⟨by rw [hp', setLayer_bbox], ?_⟩
    intro ft nm hne
    rw [hp', getLayer_setLayer_other _ _ _ _ _ _ hne]
  · intro cfg tr cl fetched p bb p' h
    obtain ⟨gdf, v, hl, hr, hp'⟩ := executeVector_ok_elim cfg tr cl fetched (some p) bb p' h
    constructor
    · intro hbbne
      rw [hp', setLayer_bbox, vecBasePatch_some, if_neg hbbne]
    · intro ft nm hne
      rw [hp', getLayer_setLayer_other _ _ _ _ _ _ hne, vecBasePatch_some]
      by_cases hb : p.bbox = none
      · rw [if_pos hb]
        rfl
      · rw [if_neg hb]

def c9rcfg : RasterTaskCfg := ⟨.mask, "R9", .scalar 5, 0, 2⟩

def c9rrp : ReprojFn := fun _ g => g

def c9rtile : Pos → Pixel := fun _ => [0, 0, 0, 255]

def c9rbb : BBoxM := ⟨⟨0, 0, 1, 1⟩, "EPSG:4326"⟩

def c9rpatch : EOPatch :=
  ⟨some c9rbb, [((FeatureType.mask, "IS_DATA"), .rasterLayer (.two fun _ => 1)),
    ((FeatureType.data, "OTHER"), .rasterLayer (.two fun _ => 2))]⟩

def c9rp' : EOPatch :=
  setLayer c9rpatch FeatureType.mask "R9"
    (.rasterLayer (appendChannelIfNeeded FeatureType.mask
      (classifiedRaster c9rcfg c9rrp c9rpatch c9rbb c9rtile)))

def c9vcfg : VectorTaskCfg := ⟨.vectorTimeless, "V9W", false, false⟩

def c9vbb : BBoxM := ⟨⟨0, 0, 4, 4⟩, "EPSG:4326"⟩

def c9vfeat : Feature := ⟨some ⟨"EPSG:4326", 0, 0, 3, 3⟩, []⟩

def c9vgdf : GeoDataFrame := ⟨"EPSG:4326", [c9vfeat]⟩

def c9vpatch : EOPatch :=
  ⟨some c9vbb, [((FeatureType.data, "OTHER"), .rasterLayer (.two fun _ => 2))]⟩

def c9vp' : EOPatch :=
  setLayer (vecBasePatch c9vgdf (some c9vpatch) (some c9vbb))
    FeatureType.vectorTimeless "V9W" (.vectorLayer c9vgdf)

theorem patch_frame_amended_witness :
    (c9rp'.bbox = c9rpatch.bbox ∧
      getLayer c9rp' FeatureType.data "OTHER" = getLayer c9rpatch FeatureType.data "OTHER") ∧
    (c9vp'.bbox = c9vpatch.bbox ∧
      getLayer c9vp' FeatureType.data "OTHER" = getLayer c9vpatch FeatureType.data "OTHER") :=
  ⟨⟨(patch_frame_amended.1 c9rcfg c9rrp c9rtile c9rpatch c9rp' rfl).1,
      (patch_frame_amended.1 c9rcfg c9rrp c9rtile c9rpatch c9rp' rfl).2
        FeatureType.data "OTHER" (by decide)⟩,
    ⟨(patch_frame_amended.2 c9vcfg c9tr c9cl [c9vfeat] c9vpatch none c9vp' rfl).1
        (by simp [c9vpatch]),
      (patch_frame_amended.2 c9vcfg c9tr c9cl [c9vfeat] c9vpatch none c9vp' rfl).2
        FeatureType.data "OTHER" (by decide)⟩⟩

end Geopedia
